import Mathlib

/-!
Shallow embedding of the audio-capture-to-block-timestamp synchronization core
of the Gita note-taking application.

Sources embedded here:
* `src/frontend/src/store/appStore.ts` — the zustand store: `createBlock`,
  `startRecording`, `stopRecording`, `playAudioFromTimestamp` and the state
  shapes (`Block`, `AudioTimestamp`, `AudioRecording`, `AudioState`).
* `src/frontend/src/components/MainEditor.tsx` — `handleCreateBlock`, which
  computes the audio metadata from `Date.now()` before invoking `createBlock`.
* `src/src-tauri/migrations/001_initial.sql` — the `audio_timestamps` table
  with its `UNIQUE (block_id, recording_id)` constraint and the cascades.

The Rust Tauri commands (`create_block`, `start_recording`, `stop_recording`,
binding lookup) are not part of the available sources; they are modelled from
the specification where needed, and each such definition says so in its doc
comment.

Time model: JavaScript `Date.now()` is a wall-clock reading.  We model the
host clock at an instant as a monotonic reading `mono` plus a wall-clock
adjustment `adj`, so that `Date.now()` returns `mono + adj`.  A system clock
adjustment between two instants changes `adj` while `mono` keeps increasing;
this lets us state (and refute) immunity of offsets to clock adjustments.
-/

namespace Gita

/-- Host clock environment at one instant: `mono` is a monotonic reading in
milliseconds, `adj` the current wall-clock adjustment applied by the OS. -/
structure Clock where
  mono : Int
  adj : Int
  deriving Repr, DecidableEq

/-- JavaScript `Date.now()` at this instant: the wall-clock reading. -/
def Clock.dateNow (c : Clock) : Int := c.mono + c.adj

/-- JavaScript `!s.trim()` (the guard in MainEditor.tsx line 24): true exactly
when the string trims to the empty string, i.e. contains only whitespace. -/
def trimEmpty (s : String) : Bool := s.data.all Char.isWhitespace

/-- `AudioRecording` interface of appStore.ts (and the `audio_recordings`
table of 001_initial.sql). -/
structure AudioRecording where
  id : Nat
  page_id : Nat
  file_path : String
  duration_seconds : Option Int
  recorded_at : Int
  deriving Repr, DecidableEq

/-- `AudioTimestamp` interface of appStore.ts: a timestamp binding of one
block to one recording, optionally carrying the loaded recording. -/
structure AudioTimestamp where
  id : Nat
  block_id : Nat
  recording_id : Nat
  timestamp_seconds : Int
  recording : Option AudioRecording
  deriving Repr, DecidableEq

/-- `Block` interface of appStore.ts (and the `blocks` table). -/
structure Block where
  id : Nat
  content : Option String
  parent_id : Option Nat
  order : Int
  is_page : Bool
  page_title : Option String
  created_at : Int
  updated_at : Int
  audio_timestamp : Option AudioTimestamp
  deriving Repr, DecidableEq

/-- `AudioState` interface of appStore.ts.  `recordingId` and `startTime` are
`undefined` outside a session; `startTime` is the `Date.now()` reading taken
by `startRecording`. -/
structure AudioState where
  isRecording : Bool
  recordingId : Option Nat
  pageId : Option Nat
  startTime : Option Int
  deriving Repr, DecidableEq

/-- `CreateBlockRequest` interface of appStore.ts. -/
structure CreateBlockRequest where
  content : Option String
  parent_id : Option Nat
  order : Int
  is_page : Bool
  page_title : Option String
  deriving Repr, DecidableEq

/-- `AudioMeta` interface of appStore.ts: the payload computed in
MainEditor.tsx and handed to the `create_block` invoke. -/
structure AudioMeta where
  recording_id : Nat
  timestamp : Int
  deriving Repr, DecidableEq

/-- The store slice of `AppState` in appStore.ts that the synchronization
core reads and writes. -/
structure AppState where
  blocks : List Block
  currentPage : Option Block
  isLoading : Bool
  error : Option String
  audioState : AudioState
  deriving Repr, DecidableEq

/-- A row of the `audio_timestamps` table (001_initial.sql lines 40-57). -/
structure TimestampRow where
  id : Nat
  block_id : Nat
  recording_id : Nat
  timestamp_seconds : Int
  deriving Repr, DecidableEq

/-- A row of the `audio_recordings` table (001_initial.sql lines 23-34). -/
structure RecordingRow where
  id : Nat
  page_id : Nat
  file_path : String
  duration_seconds : Option Int
  deriving Repr, DecidableEq

/-- The persistent store behind the Tauri commands, plus the single global
recording session owned by the backend session manager.  `nextId` is the
fresh-identifier source standing in for generated UUIDs and serials. -/
structure Db where
  blocks : List Block
  audio_timestamps : List TimestampRow
  audio_recordings : List RecordingRow
  activeSession : Option Nat
  nextId : Nat
  deriving Repr, DecidableEq

/-- Do two `audio_timestamps` rows collide on the `UNIQUE (block_id,
recording_id)` key of 001_initial.sql? -/
def sameBinding (r q : TimestampRow) : Bool :=
  r.block_id == q.block_id && r.recording_id == q.recording_id

/-- INSERT INTO `audio_timestamps`, honouring the table constraint
`UNIQUE (block_id, recording_id)` of 001_initial.sql: the insert is rejected
when a row with the same (block, recording) key already exists. -/
def insertTimestamp (t : List TimestampRow) (r : TimestampRow) :
    Except String (List TimestampRow) :=
  if t.any (sameBinding r) then
    .error "UNIQUE constraint failed: audio_timestamps block_id, recording_id"
  else
    .ok (t ++ [r])

/-- appStore.ts lines 27-34 of MainEditor.tsx: the audio metadata computed at
block-creation time.  `dateNow` is the `Date.now()` reading at that instant.
JavaScript truthiness: the guard `audioState.isRecording &&
audioState.recordingId && audioState.startTime` is false when `startTime` is
the number 0, so that case yields no metadata. -/
def mkAudioMeta (a : AudioState) (dateNow : Int) : Option AudioMeta :=
  match a.recordingId, a.startTime with
  | some recordingId, some startTime =>
      if a.isRecording && startTime != 0 then
        some { recording_id := recordingId
               timestamp := Int.fdiv (dateNow - startTime) 1000 }
      else none
  | _, _ => none

/-- appStore.ts lines 183-208, Tauri path: `createBlock` applies the reply of
the `create_block` invoke to the store.  On success the new block is appended
to `blocks`; on failure only `error` is set and the error is re-thrown. -/
def createBlock (s : AppState) (invokeResult : Except String Block) :
    AppState × Except String Block :=
  match invokeResult with
  | .ok newBlock =>
      ({ s with blocks := s.blocks ++ [newBlock] }, .ok newBlock)
  | .error e => ({ s with error := some e }, .error e)

/-- appStore.ts lines 257-288, Tauri path: `startRecording` applies the reply
of the `start_recording` invoke; on success it marks the session active and
records `startTime := Date.now()` (the `now` argument, the wall-clock reading
taken when the reply is processed). -/
def startRecording (s : AppState) (pageId : Nat)
    (invokeResult : Except String Nat) (now : Int) :
    AppState × Except String Unit :=
  match invokeResult with
  | .ok recordingId =>
      ({ s with audioState :=
          { s.audioState with
              isRecording := true
              recordingId := some recordingId
              pageId := some pageId
              startTime := some now } }, .ok ())
  | .error e => ({ s with error := some e }, .error e)

/-- Outcome of one `stopRecording` call as seen by its caller. -/
inductive StopOutcome where
  /-- The guard `if (!audioState.recordingId) return` fired: the call returns
  at once, and the `stop_recording` invoke never happens. -/
  | earlyReturn : StopOutcome
  /-- The `stop_recording` invoke ran and succeeded for this recording. -/
  | stopped (recordingId : Nat) : StopOutcome
  /-- The invoke failed; the error is stored and re-thrown. -/
  | threw (e : String) : StopOutcome
  deriving Repr, DecidableEq

/-- appStore.ts lines 290-327, Tauri path: `stopRecording` returns silently
when no `recordingId` is present; otherwise it applies the reply of the
`stop_recording` invoke, clearing the audio state on success. -/
def stopRecording (s : AppState) (invokeResult : Except String Unit) :
    AppState × StopOutcome :=
  match s.audioState.recordingId with
  | none => (s, .earlyReturn)
  | some recordingId =>
    match invokeResult with
    | .ok _ =>
        ({ s with audioState :=
            { s.audioState with
                isRecording := false
                recordingId := none
                pageId := none
                startTime := none } }, .stopped recordingId)
    | .error e => ({ s with error := some e }, .threw e)

/-- Caller-observable effects of `playAudioFromTimestamp`. -/
structure PlayEffects where
  /-- An exception surfaced to the caller; `none` means the call returned
  normally (the TypeScript function returns `void`). -/
  threw : Option String
  /-- Messages written with `console.error`. -/
  consoleErrors : List String
  /-- File path and seek position when playback actually starts. -/
  played : Option (String × Int)
  deriving Repr, DecidableEq

/-- appStore.ts lines 359-368: `playAudioFromTimestamp` returns silently when
no loaded recording is attached; otherwise it seeks an Audio element to
`timestamp_seconds` and plays.  A rejection of `audio.play()` (missing or
unreadable file) is caught and logged with `console.error`; nothing is thrown
to the caller.  `fileOk path` models whether the audio file at `path` is
present and readable. -/
def playAudioFromTimestamp (ts : AudioTimestamp) (fileOk : String → Bool) :
    PlayEffects :=
  match ts.recording with
  | none => { threw := none, consoleErrors := [], played := none }
  | some rec =>
    if fileOk rec.file_path then
      { threw := none
        consoleErrors := []
        played := some (rec.file_path, ts.timestamp_seconds) }
    else
      { threw := none
        consoleErrors := ["Failed to play audio:"]
        played := none }

/-- Modelled from the spec: the Rust `create_block` Tauri command is not under
src/ (only its frontend callers and the SQL schema are).  Per the spec it
creates the block row with a fresh identifier (`created_at` and `updated_at`
defaulted to the insertion-time clock `tPersist`, per 001_initial.sql) and
then, when audio metadata is present, saves the Binding best-effort into
`audio_timestamps`: "block creation never fails merely because binding failed
— binding is best-effort metadata and its failure is logged/reported but does
not block note-taking".  The third component is the reported binding failure,
if any. -/
def backendCreateBlock (db : Db) (req : CreateBlockRequest)
    (audioMeta : Option AudioMeta) (tPersist : Int) :
    Db × Block × Option String :=
  let bid := db.nextId
  let bare : Block :=
    { id := bid
      content := req.content
      parent_id := req.parent_id
      order := req.order
      is_page := req.is_page
      page_title := req.page_title
      created_at := tPersist
      updated_at := tPersist
      audio_timestamp := none }
  match audioMeta with
  | none =>
      ({ db with blocks := db.blocks ++ [bare], nextId := bid + 1 }, bare, none)
  | some m =>
    let row : TimestampRow :=
      { id := bid
        block_id := bid
        recording_id := m.recording_id
        timestamp_seconds := m.timestamp }
    match insertTimestamp db.audio_timestamps row with
    | .ok t =>
        let ts : AudioTimestamp :=
          { id := bid
            block_id := bid
            recording_id := m.recording_id
            timestamp_seconds := m.timestamp
            recording := none }
        let bound : Block := { bare with audio_timestamp := some ts }
        ({ db with blocks := db.blocks ++ [bound]
                   audio_timestamps := t
                   nextId := bid + 1 }, bound, none)
    | .error e =>
        ({ db with blocks := db.blocks ++ [bare], nextId := bid + 1 },
         bare, some e)

/-- Modelled from the spec: the Rust `start_recording` Tauri command is not
under src/.  Per the spec, `start(pageId)` fails with `AlreadyRecording` when
a session is already active (recording is a single global exclusive
resource); otherwise it opens the audio sink, creates the recording row
(duration still unknown), marks the session active and returns the fresh
recording identifier. -/
def backendStartRecording (db : Db) (pageId : Nat) : Db × Except String Nat :=
  match db.activeSession with
  | some _ => (db, .error "AlreadyRecording")
  | none =>
    let rid := db.nextId
    ({ db with
        activeSession := some rid
        audio_recordings := db.audio_recordings ++
          [{ id := rid, page_id := pageId, file_path := "audio.wav",
             duration_seconds := none }]
        nextId := rid + 1 }, .ok rid)

/-- Modelled from the spec: the Rust `stop_recording` Tauri command is not
under src/.  Per the spec, `stop` fails with `NotRecording` if the handle is
stale or the session already stopped; otherwise it closes the sink, persists
the final duration exactly once and clears the active session. -/
def backendStopRecording (db : Db) (recordingId : Nat) (duration : Int) :
    Db × Except String Unit :=
  match db.activeSession with
  | none => (db, .error "NotRecording")
  | some rid =>
    if rid == recordingId then
      ({ db with
          activeSession := none
          audio_recordings := db.audio_recordings.map fun r =>
            if r.id == recordingId then
              { r with duration_seconds := some duration }
            else r }, .ok ())
    else (db, .error "NotRecording")

/-- Modelled from the spec: `loadBinding(blockId) -> Optional<Binding>` of the
Durable Recording Store (the Rust query command is not under src/): the
lookup of the `audio_timestamps` row of a block. -/
def loadBinding (db : Db) (blockId : Nat) : Option TimestampRow :=
  db.audio_timestamps.find? fun r => r.block_id == blockId

/-- The whole system: the frontend store plus the backend store. -/
structure Sys where
  app : AppState
  db : Db
  deriving Repr, DecidableEq

/-- MainEditor.tsx lines 20-50, Tauri path: Enter pressed with `content` in
the new-block box.  `now` is the `Date.now()` reading at the instant the
handler runs (the creation intent); `tPersist` is the instant the backend
write lands.  The guard of line 24 skips empty input or a missing page; the
audio metadata is computed from `now` before `createBlock` is awaited, and
errors of `createBlock` are caught and logged (lines 46-48). -/
def handleCreateBlock (s : Sys) (content : String) (now : Int)
    (tPersist : Int) : Sys × Option Block :=
  if trimEmpty content then (s, none)
  else
    match s.app.currentPage with
    | none => (s, none)
    | some page =>
      let audioMeta := mkAudioMeta s.app.audioState now
      let sortedBlocks := s.app.blocks.filter fun b => !b.is_page
      let req : CreateBlockRequest :=
        { content := some content
          parent_id := some page.id
          order := sortedBlocks.length
          is_page := false
          page_title := none }
      let res := backendCreateBlock s.db req audioMeta tPersist
      let front := createBlock s.app (.ok res.2.1)
      ({ app := front.1, db := res.1 }, some res.2.1)

/-- The store action `startRecording` wired to the modelled backend: the
invoke runs first, then the store applies its reply (appStore.ts 257-288). -/
def sysStartRecording (s : Sys) (pageId : Nat) (now : Int) :
    Sys × Except String Unit :=
  let back := backendStartRecording s.db pageId
  let front := startRecording s.app pageId back.2 now
  ({ app := front.1, db := back.1 }, front.2)

/-- The store action `stopRecording` wired to the modelled backend: the guard
of appStore.ts line 292 returns before any invoke when no `recordingId` is
present; otherwise the `stop_recording` invoke runs and the store applies its
reply. -/
def sysStopRecording (s : Sys) (duration : Int) : Sys × StopOutcome :=
  match s.app.audioState.recordingId with
  | none => (s, .earlyReturn)
  | some rid =>
    let back := backendStopRecording s.db rid duration
    let front := stopRecording s.app back.2
    ({ app := front.1, db := back.1 }, front.2)

/-- appStore.ts lines 210-233, Tauri path: `updateBlockContent` rewrites the
content of one block in the store; the backend command (not under src/,
ordinary CRUD per the spec) does the same on `blocks` and touches nothing
else. -/
def sysUpdateBlockContent (s : Sys) (blockId : Nat) (content : String)
    (now : Int) : Sys :=
  let upd : List Block → List Block := fun bs =>
    bs.map fun b =>
      if b.id == blockId then { b with content := some content
                                       updated_at := now }
      else b
  { app := { s.app with blocks := upd s.app.blocks }
    db := { s.db with blocks := upd s.db.blocks } }

/-- appStore.ts lines 235-254, Tauri path: `deleteBlock` removes the block
from the store; the backend command (not under src/, ordinary CRUD per the
spec) deletes the row, and 001_initial.sql cascades the delete onto the
`audio_timestamps` rows of that block (`ON DELETE CASCADE`). -/
def sysDeleteBlock (s : Sys) (blockId : Nat) : Sys :=
  { app := { s.app with
      blocks := s.app.blocks.filter fun b => !(b.id == blockId) }
    db := { s.db with
      blocks := s.db.blocks.filter fun b => !(b.id == blockId)
      audio_timestamps :=
        s.db.audio_timestamps.filter fun r => !(r.block_id == blockId) } }

/-- One user-level operation of the synchronization core, tagged with the
host clock at the instant it runs where the code reads the clock. -/
inductive Op where
  | start (pageId : Nat) (c : Clock) : Op
  | stop (duration : Int) : Op
  | createB (content : String) (c : Clock) (tPersist : Int) : Op
  | updateB (blockId : Nat) (content : String) (c : Clock) : Op
  | deleteB (blockId : Nat) : Op
  deriving Repr, DecidableEq

/-- Execute one operation. -/
def stepOp (s : Sys) (op : Op) : Sys :=
  match op with
  | .start pageId c => (sysStartRecording s pageId c.dateNow).1
  | .stop d => (sysStopRecording s d).1
  | .createB content c tP => (handleCreateBlock s content c.dateNow tP).1
  | .updateB blockId content c => sysUpdateBlockContent s blockId content c.dateNow
  | .deleteB blockId => sysDeleteBlock s blockId

/-- Execute a list of operations in order. -/
def run (s : Sys) (ops : List Op) : Sys := ops.foldl stepOp s

/-- All `audio_timestamps` rows reference already-allocated identifiers:
every reachable store satisfies this, since row block identifiers come from
the fresh-identifier source. -/
def DbBounded (db : Db) : Prop :=
  ∀ r ∈ db.audio_timestamps, r.block_id < db.nextId

instance (db : Db) : Decidable (DbBounded db) := by
  unfold DbBounded; infer_instance

/-- The row inserted for a block created at wall-clock reading `now` while the
session of `rid` is active. -/
def rowOf (s : Sys) (rid : Nat) (st now : Int) : TimestampRow :=
  { id := s.db.nextId, block_id := s.db.nextId, recording_id := rid,
    timestamp_seconds := Int.fdiv (now - st) 1000 }

/-- The block returned for a creation at wall-clock reading `now` while the
session of `rid` is active. -/
def blockOf (s : Sys) (content : String) (page : Block) (rid : Nat)
    (st now tP : Int) : Block :=
  { id := s.db.nextId
    content := some content
    parent_id := some page.id
    order := (s.app.blocks.filter fun b => !b.is_page).length
    is_page := false
    page_title := none
    created_at := tP
    updated_at := tP
    audio_timestamp := some
      { id := s.db.nextId, block_id := s.db.nextId, recording_id := rid,
        timestamp_seconds := Int.fdiv (now - st) 1000, recording := none } }

/-- Block identifier `n` is already allocated and no binding row mentions
it.  This is the induction invariant showing that a block created while no
session is active can never be bound afterwards. -/
def NeverBound (n : Nat) (s : Sys) : Prop :=
  (∀ r ∈ s.db.audio_timestamps, r.block_id ≠ n) ∧ n < s.db.nextId

/-- A daily-note page block, as created by `loadPage` for a fresh page. -/
def pageFixture : Block :=
  { id := 0, content := none, parent_id := none, order := 0, is_page := true,
    page_title := some "Daily", created_at := 0, updated_at := 0,
    audio_timestamp := none }

/-- Initial system: one page loaded, nothing recording, empty tables. -/
def sys0 : Sys :=
  { app :=
      { blocks := [pageFixture], currentPage := some pageFixture,
        isLoading := false, error := none,
        audioState :=
          { isRecording := false, recordingId := none, pageId := none,
            startTime := none } }
    db :=
      { blocks := [pageFixture], audio_timestamps := [],
        audio_recordings := [], activeSession := none, nextId := 1 } }

/-- `sys0` after a recording was started at wall-clock reading 1000: session
of recording 1 is active with `startTime = 1000`. -/
def recordingSys : Sys := (sysStartRecording sys0 0 1000).1

/-- A binding whose loaded recording points at an audio file that will turn
out to be missing. -/
def missingFileTimestamp : AudioTimestamp :=
  { id := 1, block_id := 2, recording_id := 1, timestamp_seconds := 5,
    recording := some
      { id := 1, page_id := 0, file_path := "gone.wav",
        duration_seconds := some 7, recorded_at := 0 } }

/-- The block created by `handleCreateBlock` in `sys0` (no active session)
with content "note": identifier 1, no binding. -/
def unboundBlockFixture : Block :=
  { id := 1, content := some "note", parent_id := some 0, order := 0,
    is_page := false, page_title := none, created_at := 0, updated_at := 0,
    audio_timestamp := none }

/-- No two rows of the table collide on the (block, recording) key. -/
def AtMostOnePerPair (t : List TimestampRow) : Prop :=
  t.Pairwise fun r q =>
    ¬(r.block_id = q.block_id ∧ r.recording_id = q.recording_id)

theorem mkAudioMeta_not_recording (a : AudioState) (n : Int)
    (h : a.isRecording = false) : mkAudioMeta a n = none := by
  cases hr : a.recordingId <;> cases hs : a.startTime <;>
    simp [mkAudioMeta, hr, hs, h]

theorem mkAudioMeta_recording (a : AudioState) (n : Int) (rid : Nat) (st : Int)
    (hrec : a.isRecording = true) (hrid : a.recordingId = some rid)
    (hst : a.startTime = some st) (hst0 : st ≠ 0) :
    mkAudioMeta a n =
      some { recording_id := rid, timestamp := Int.fdiv (n - st) 1000 } := by
  simp [mkAudioMeta, hrid, hst, hrec, hst0]

theorem insertTimestamp_fresh (db : Db) (row : TimestampRow)
    (hdb : DbBounded db) (hrow : row.block_id = db.nextId) :
    insertTimestamp db.audio_timestamps row =
      .ok (db.audio_timestamps ++ [row]) := by
  unfold insertTimestamp
  rw [if_neg]
  intro h
  simp only [List.any_eq_true, sameBinding, Bool.and_eq_true, beq_iff_eq] at h
  obtain ⟨q, hq, h1, _⟩ := h
  have := hdb q hq
  omega

theorem handleCreateBlock_recording (s : Sys) (content : String) (now tP : Int)
    (rid : Nat) (st : Int) (page : Block)
    (hrec : s.app.audioState.isRecording = true)
    (hrid : s.app.audioState.recordingId = some rid)
    (hst : s.app.audioState.startTime = some st)
    (hst0 : st ≠ 0)
    (hcontent : trimEmpty content = false)
    (hpage : s.app.currentPage = some page)
    (hdb : DbBounded s.db) :
    handleCreateBlock s content now tP =
      ({ app := { s.app with
            blocks := s.app.blocks ++ [blockOf s content page rid st now tP] }
         db := { s.db with
            blocks := s.db.blocks ++ [blockOf s content page rid st now tP]
            audio_timestamps := s.db.audio_timestamps ++ [rowOf s rid st now]
            nextId := s.db.nextId + 1 } },
       some (blockOf s content page rid st now tP)) := by
  have hmeta := mkAudioMeta_recording s.app.audioState now rid st hrec hrid hst hst0
  have hins := insertTimestamp_fresh s.db (rowOf s rid st now) hdb rfl
  simp only [rowOf] at hins
  simp [handleCreateBlock, hcontent, hpage, hmeta, backendCreateBlock,
    rowOf, hins, createBlock, blockOf]

theorem handleCreateBlock_recording_bounded (s : Sys) (content : String)
    (now tP : Int) (rid : Nat) (st : Int) (page : Block)
    (hrec : s.app.audioState.isRecording = true)
    (hrid : s.app.audioState.recordingId = some rid)
    (hst : s.app.audioState.startTime = some st)
    (hst0 : st ≠ 0)
    (hcontent : trimEmpty content = false)
    (hpage : s.app.currentPage = some page)
    (hdb : DbBounded s.db) :
    DbBounded (handleCreateBlock s content now tP).1.db := by
  have h := handleCreateBlock_recording s content now tP rid st page hrec hrid
    hst hst0 hcontent hpage hdb
  intro r hr
  rw [h] at hr ⊢
  simp only [List.mem_append, List.mem_singleton, rowOf] at hr
  show r.block_id < s.db.nextId + 1
  rcases hr with hr | hr
  · have := hdb r hr; omega
  · simp [hr]

theorem sysStartRecording_idle (s : Sys) (pageId : Nat) (now : Int)
    (hidle : s.db.activeSession = none) :
    sysStartRecording s pageId now =
      ({ app := { s.app with audioState :=
            { isRecording := true, recordingId := some s.db.nextId,
              pageId := some pageId, startTime := some now } }
         db := { s.db with
            activeSession := some s.db.nextId
            audio_recordings := s.db.audio_recordings ++
              [{ id := s.db.nextId, page_id := pageId,
                 file_path := "audio.wav", duration_seconds := none }]
            nextId := s.db.nextId + 1 } }, .ok ()) := by
  simp [sysStartRecording, backendStartRecording, hidle, startRecording]

theorem sysStopRecording_active (s : Sys) (rid : Nat) (duration : Int)
    (hrid : s.app.audioState.recordingId = some rid)
    (hact : s.db.activeSession = some rid) :
    sysStopRecording s duration =
      ({ app := { s.app with audioState :=
            { isRecording := false, recordingId := none,
              pageId := none, startTime := none } }
         db := { s.db with
            activeSession := none
            audio_recordings := s.db.audio_recordings.map fun r =>
              if r.id == rid then { r with duration_seconds := some duration }
              else r } }, .stopped rid) := by
  simp [sysStopRecording, hrid, backendStopRecording, hact, stopRecording]

theorem sysStopRecording_inactive (s : Sys) (duration : Int)
    (hrid : s.app.audioState.recordingId = none) :
    sysStopRecording s duration = (s, .earlyReturn) := by
  simp [sysStopRecording, hrid]

theorem handleCreateBlock_not_recording (s : Sys) (content : String)
    (now tP : Int) (page : Block)
    (hnot : s.app.audioState.isRecording = false)
    (hcontent : trimEmpty content = false)
    (hpage : s.app.currentPage = some page) :
    ∃ b : Block,
      handleCreateBlock s content now tP =
        ({ app := { s.app with blocks := s.app.blocks ++ [b] }
           db := { s.db with blocks := s.db.blocks ++ [b]
                             nextId := s.db.nextId + 1 } }, some b) ∧
      b.id = s.db.nextId ∧ b.audio_timestamp = none := by
  have hmeta := mkAudioMeta_not_recording s.app.audioState now hnot
  refine ⟨{ id := s.db.nextId, content := some content,
            parent_id := some page.id,
            order := (s.app.blocks.filter fun b => !b.is_page).length,
            is_page := false, page_title := none, created_at := tP,
            updated_at := tP, audio_timestamp := none }, ?_, rfl, rfl⟩
  simp [handleCreateBlock, hcontent, hpage, hmeta, backendCreateBlock,
    createBlock]

theorem sysStartRecording_busy (s : Sys) (pageId : Nat) (now : Int) (r0 : Nat)
    (hact : s.db.activeSession = some r0) :
    sysStartRecording s pageId now =
      ({ app := { s.app with error := some "AlreadyRecording" }, db := s.db },
       .error "AlreadyRecording") := by
  simp [sysStartRecording, backendStartRecording, hact, startRecording]

theorem insertTimestamp_ok_shape (t t' : List TimestampRow) (r : TimestampRow)
    (h : insertTimestamp t r = .ok t') : t' = t ++ [r] := by
  unfold insertTimestamp at h
  split at h
  · exact absurd h (by simp)
  · exact (Except.ok.injEq _ _ ▸ h).symm

theorem sysStartRecording_db_frame (s : Sys) (pageId : Nat) (now : Int) :
    (sysStartRecording s pageId now).1.db.audio_timestamps =
      s.db.audio_timestamps ∧
    s.db.nextId ≤ (sysStartRecording s pageId now).1.db.nextId := by
  unfold sysStartRecording backendStartRecording startRecording
  rcases hact : s.db.activeSession with _ | r0 <;> simp [hact]

theorem sysStopRecording_db_frame (s : Sys) (d : Int) :
    (sysStopRecording s d).1.db.audio_timestamps = s.db.audio_timestamps ∧
    (sysStopRecording s d).1.db.nextId = s.db.nextId := by
  unfold sysStopRecording backendStopRecording stopRecording
  rcases hrid : s.app.audioState.recordingId with _ | rid <;> simp [hrid]
  rcases hact : s.db.activeSession with _ | r0 <;> simp [hact]
  split <;> simp

theorem handleCreateBlock_db_shape (s : Sys) (content : String) (now tP : Int) :
    ((handleCreateBlock s content now tP).1.db.audio_timestamps =
        s.db.audio_timestamps ∧
      s.db.nextId ≤ (handleCreateBlock s content now tP).1.db.nextId) ∨
    (∃ row : TimestampRow, row.block_id = s.db.nextId ∧
      (handleCreateBlock s content now tP).1.db.audio_timestamps =
        s.db.audio_timestamps ++ [row] ∧
      (handleCreateBlock s content now tP).1.db.nextId = s.db.nextId + 1) := by
  unfold handleCreateBlock
  rcases htr : trimEmpty content with _ | _
  · rcases hpage : s.app.currentPage with _ | page
    · simp [htr, hpage]
    · rcases hmeta : mkAudioMeta s.app.audioState now with _ | m
      · simp [htr, hpage, hmeta, backendCreateBlock, createBlock]
      · rcases hins : insertTimestamp s.db.audio_timestamps
            { id := s.db.nextId, block_id := s.db.nextId,
              recording_id := m.recording_id,
              timestamp_seconds := m.timestamp } with e | t
        · simp [htr, hpage, hmeta, backendCreateBlock, hins, createBlock]
        · right
          refine ⟨{ id := s.db.nextId, block_id := s.db.nextId,
                    recording_id := m.recording_id,
                    timestamp_seconds := m.timestamp }, rfl, ?_, ?_⟩ <;>
            simp [htr, hpage, hmeta, backendCreateBlock, hins, createBlock,
              insertTimestamp_ok_shape _ _ _ hins]
  · simp [htr]

theorem stepOp_neverBound (n : Nat) (s : Sys) (op : Op)
    (h : NeverBound n s) : NeverBound n (stepOp s op) := by
  obtain ⟨hrows, hn⟩ := h
  cases op with
  | start pageId c =>
    simp only [stepOp]
    obtain ⟨h1, h2⟩ := sysStartRecording_db_frame s pageId c.dateNow
    exact ⟨fun r hr => hrows r (h1 ▸ hr), by omega⟩
  | stop d =>
    simp only [stepOp]
    obtain ⟨h1, h2⟩ := sysStopRecording_db_frame s d
    exact ⟨fun r hr => hrows r (h1 ▸ hr), by omega⟩
  | createB content c tP =>
    simp only [stepOp]
    rcases handleCreateBlock_db_shape s content c.dateNow tP with
      ⟨h1, h2⟩ | ⟨row, hb, h1, h2⟩
    · exact ⟨fun r hr => hrows r (h1 ▸ hr), by omega⟩
    · constructor
      · intro r hr
        rw [h1, List.mem_append, List.mem_singleton] at hr
        rcases hr with hr | hr
        · exact hrows r hr
        · subst hr; omega
      · omega
  | updateB blockId content c =>
    simp only [stepOp]
    exact ⟨fun r hr => hrows r hr, hn⟩
  | deleteB blockId =>
    simp only [stepOp]
    constructor
    · intro r hr
      have hr2 : r ∈ s.db.audio_timestamps := (List.mem_filter.mp hr).1
      exact hrows r hr2
    · exact hn

theorem run_neverBound (n : Nat) :
    ∀ (ops : List Op) (s : Sys), NeverBound n s → NeverBound n (run s ops)
  | [], _, hs => hs
  | op :: ops, s, hs =>
      run_neverBound n ops (stepOp s op) (stepOp_neverBound n s op hs)

theorem loadBinding_eq_none (db : Db) (n : Nat)
    (h : ∀ r ∈ db.audio_timestamps, r.block_id ≠ n) :
    loadBinding db n = none := by
  unfold loadBinding
  rw [List.find?_eq_none]
  intro r hr
  simp only [beq_iff_eq]
  exact h r hr

/-- C6 counterexample: from a freshly started session, the first `stop` call
succeeds, but a second `stop` call is a silent no-op — the guard in
appStore.ts line 292 returns before the `stop_recording` invoke — so the
second call does NOT fail with the `NotRecording` error the claim requires. -/
theorem second_stop_is_silent_noop :
    (sysStopRecording recordingSys 7).2 = .stopped 1 ∧
    (sysStopRecording (sysStopRecording recordingSys 7).1 5).2 =
      .earlyReturn ∧
    StopOutcome.earlyReturn ≠ .threw "NotRecording" := by decide

/-- C6 (amended): calling `stop` a second time on the same already-stopped
handle is a silent no-op — the frontend guard returns early without invoking
the backend and without raising `NotRecording` — the state is unchanged by
the second call, and the Recording is persisted (its duration finalized)
exactly once, by the first call. -/
theorem double_stop_single_persist (s : Sys) (rid : Nat) (d1 d2 : Int)
    (hrid : s.app.audioState.recordingId = some rid)
    (hact : s.db.activeSession = some rid) :
    (sysStopRecording s d1).2 = .stopped rid ∧
    (sysStopRecording (sysStopRecording s d1).1 d2).2 = .earlyReturn ∧
    (sysStopRecording (sysStopRecording s d1).1 d2).1 =
      (sysStopRecording s d1).1 ∧
    (sysStopRecording s d1).1.db.audio_recordings =
      s.db.audio_recordings.map (fun r =>
        if r.id == rid then { r with duration_seconds := some d1 } else r) := by
  rw [sysStopRecording_active s rid d1 hrid hact]
  refine ⟨rfl, ?_, ?_, rfl⟩ <;> rw [sysStopRecording_inactive _ d2 rfl]

/-- C6 witness: the amended statement at the concrete session of
`recordingSys`. -/
theorem double_stop_single_persist_witness :
    (sysStopRecording recordingSys 7).2 = .stopped 1 ∧
    (sysStopRecording (sysStopRecording recordingSys 7).1 5).2 =
      .earlyReturn ∧
    (sysStopRecording (sysStopRecording recordingSys 7).1 5).1 =
      (sysStopRecording recordingSys 7).1 ∧
    (sysStopRecording recordingSys 7).1.db.audio_recordings =
      recordingSys.db.audio_recordings.map (fun r =>
        if r.id == 1 then { r with duration_seconds := some 7 } else r) :=
  double_stop_single_persist recordingSys 1 7 5 rfl rfl

/-- C7: the `UNIQUE (block_id, recording_id)` constraint of 001_initial.sql:
inserting a second binding for a (block, recording) pair already in the
table is rejected with the constraint error, and a successful insert
preserves at-most-one-binding-per-pair. -/
theorem binding_unique_per_block_recording (t : List TimestampRow)
    (r : TimestampRow) (hu : AtMostOnePerPair t) :
    ((∃ q ∈ t, q.block_id = r.block_id ∧ q.recording_id = r.recording_id) →
      insertTimestamp t r = .error
        "UNIQUE constraint failed: audio_timestamps block_id, recording_id") ∧
    (∀ t2, insertTimestamp t r = .ok t2 → AtMostOnePerPair t2) := by
  constructor
  · rintro ⟨q, hq, h1, h2⟩
    unfold insertTimestamp
    rw [if_pos]
    rw [List.any_eq_true]
    exact ⟨q, hq, by simp [sameBinding, h1, h2]⟩
  · intro t2 ht2
    have hany : t.any (sameBinding r) = false := by
      by_contra hc
      rw [Bool.not_eq_false] at hc
      unfold insertTimestamp at ht2
      rw [if_pos hc] at ht2
      exact absurd ht2 (by simp)
    have hsh := insertTimestamp_ok_shape t t2 r ht2
    subst hsh
    unfold AtMostOnePerPair at hu ⊢
    rw [List.pairwise_append]
    refine ⟨hu, List.pairwise_singleton _ _, ?_⟩
    intro a ha b hb
    rw [List.mem_singleton] at hb
    subst hb
    rw [List.any_eq_false] at hany
    have := hany a ha
    rw [Bool.not_eq_true] at this
    simp only [sameBinding, Bool.and_eq_false_iff, beq_eq_false_iff_ne] at this
    rintro ⟨e1, e2⟩
    rcases this with h | h
    · exact h e1.symm
    · exact h e2.symm

/-- C7 witness: the statement at a one-row table and a row colliding with
it on the (block, recording) key. -/
theorem binding_unique_per_block_recording_witness :
    ((∃ q ∈ [TimestampRow.mk 1 2 1 5],
        q.block_id = (TimestampRow.mk 2 2 1 9).block_id ∧
        q.recording_id = (TimestampRow.mk 2 2 1 9).recording_id) →
      insertTimestamp [TimestampRow.mk 1 2 1 5] (TimestampRow.mk 2 2 1 9) =
        .error
        "UNIQUE constraint failed: audio_timestamps block_id, recording_id") ∧
    (∀ t2, insertTimestamp [TimestampRow.mk 1 2 1 5]
        (TimestampRow.mk 2 2 1 9) = .ok t2 → AtMostOnePerPair t2) :=
  binding_unique_per_block_recording [TimestampRow.mk 1 2 1 5]
    (TimestampRow.mk 2 2 1 9)
    (by unfold AtMostOnePerPair; exact List.pairwise_singleton _ _)

/-- C8: failure of the timestamp-binding step alone never fails the block
creation: whatever the metadata and however the binding insert turns out
(including a constraint failure), the backend appends the new block and
returns it, the binding failure is only reported in the third component, and
the store action appends the returned block and yields it as a success. -/
theorem binding_failure_does_not_fail_creation (db : Db) (a : AppState)
    (req : CreateBlockRequest) (meta : Option AudioMeta) (tP : Int) :
    (backendCreateBlock db req meta tP).1.blocks =
      db.blocks ++ [(backendCreateBlock db req meta tP).2.1] ∧
    (createBlock a (.ok (backendCreateBlock db req meta tP).2.1)).1.blocks =
      a.blocks ++ [(backendCreateBlock db req meta tP).2.1] ∧
    (createBlock a (.ok (backendCreateBlock db req meta tP).2.1)).2 =
      .ok (backendCreateBlock db req meta tP).2.1 := by
  rcases meta with _ | m
  · simp [backendCreateBlock, createBlock]
  · rcases hins : insertTimestamp db.audio_timestamps
        { id := db.nextId, block_id := db.nextId,
          recording_id := m.recording_id,
          timestamp_seconds := m.timestamp } with e | t <;>
      simp [backendCreateBlock, hins, createBlock]

/-- C9 counterexample: playing a binding whose audio file is missing (every
file unreadable) surfaces NO error to the caller — the function returns
normally with `threw = none`, merely logging via `console.error` — so the
claim that a `RecordingUnavailable` error is surfaced to the caller fails. -/
theorem missing_file_error_swallowed :
    (playAudioFromTimestamp missingFileTimestamp fun _ => false).threw =
      none ∧
    (playAudioFromTimestamp missingFileTimestamp
        fun _ => false).consoleErrors = ["Failed to play audio:"] ∧
    (playAudioFromTimestamp missingFileTimestamp fun _ => false).played =
      none := by decide

/-- C9 (amended): playback on a binding whose audio file is missing or
unreadable never crashes the application — nothing is thrown to the caller —
but no `RecordingUnavailable` error is surfaced either: the `play()`
rejection is caught and logged with `console.error` and playback silently
does not start. -/
theorem playback_never_throws_logs_failure (ts : AudioTimestamp)
    (fileOk : String → Bool) (rec : AudioRecording)
    (hrec : ts.recording = some rec)
    (hbad : fileOk rec.file_path = false) :
    (playAudioFromTimestamp ts fileOk).threw = none ∧
    (playAudioFromTimestamp ts fileOk).played = none ∧
    (playAudioFromTimestamp ts fileOk).consoleErrors =
      ["Failed to play audio:"] := by
  simp [playAudioFromTimestamp, hrec, hbad]

/-- C9 witness: the amended statement at the concrete missing-file
binding. -/
theorem playback_never_throws_logs_failure_witness :
    (playAudioFromTimestamp missingFileTimestamp fun _ => false).threw =
      none ∧
    (playAudioFromTimestamp missingFileTimestamp fun _ => false).played =
      none ∧
    (playAudioFromTimestamp missingFileTimestamp
        fun _ => false).consoleErrors = ["Failed to play audio:"] :=
  playback_never_throws_logs_failure missingFileTimestamp (fun _ => false)
    { id := 1, page_id := 0, file_path := "gone.wav",
      duration_seconds := some 7, recorded_at := 0 } rfl rfl

/-- C10: frame conditions of the store action `createBlock`: on success the
new block is appended at the end of the block list and the previous blocks,
the current page, the audio state, the loading flag and the error field are
untouched; on failure the block list, current page, audio state and loading
flag are untouched and only the error field is set. -/
theorem createBlock_frame (s : AppState) (b : Block) (e : String) :
    (createBlock s (.ok b)).1.blocks = s.blocks ++ [b] ∧
    (createBlock s (.ok b)).1.currentPage = s.currentPage ∧
    (createBlock s (.ok b)).1.audioState = s.audioState ∧
    (createBlock s (.ok b)).1.isLoading = s.isLoading ∧
    (createBlock s (.ok b)).1.error = s.error ∧
    (createBlock s (.error e)).1.blocks = s.blocks ∧
    (createBlock s (.error e)).1.currentPage = s.currentPage ∧
    (createBlock s (.error e)).1.audioState = s.audioState ∧
    (createBlock s (.error e)).1.isLoading = s.isLoading ∧
    (createBlock s (.error e)).1.error = some e := by
  simp [createBlock]

theorem fdiv_thousand_mono {a b : Int} (h : a ≤ b) :
    Int.fdiv a 1000 ≤ Int.fdiv b 1000 := by
  rw [Int.fdiv_eq_ediv _ (by norm_num), Int.fdiv_eq_ediv _ (by norm_num)]
  exact Int.ediv_le_ediv (by norm_num) h

/-- C1 counterexample: two executions with the SAME monotonic clock readings
(session start at monotonic 1000, block creation at monotonic 6000, so the
monotonic elapsed time is 5000 ms in both) store DIFFERENT offsets when the
wall clock is adjusted by -3000 ms between start and creation: 5 seconds
versus 2 seconds.  The offset is therefore computed from the wall clock
(`Date.now()` in MainEditor.tsx line 29), not from a monotonic clock, and is
not immune to system clock adjustments. -/
theorem offset_changes_under_clock_adjustment :
    ((run sys0 [Op.start 0 (Clock.mk 1000 0),
        Op.createB "note" (Clock.mk 6000 0) 6000]).db.audio_timestamps.map
      fun r => r.timestamp_seconds) = [5] ∧
    ((run sys0 [Op.start 0 (Clock.mk 1000 0),
        Op.createB "note" (Clock.mk 6000 (-3000)) 3000]).db.audio_timestamps.map
      fun r => r.timestamp_seconds) = [2] ∧
    (Clock.mk 6000 0).mono - (Clock.mk 1000 0).mono =
      (Clock.mk 6000 (-3000)).mono - (Clock.mk 1000 0).mono ∧
    (5 : Int) ≠ 2 := by decide

/-- C1 (amended): for every block created during an active session, the
stored offset is the wall-clock difference: floor of
(`Date.now()` at creation minus the `Date.now()` captured at `startRecording`)
divided by 1000.  It is computed from the wall clock, so a system clock
adjustment between session start and block creation shifts the offset by the
adjustment. -/
theorem offset_is_wall_clock_difference (s : Sys) (pageId : Nat)
    (c0 c1 : Clock) (content : String) (tP : Int) (page : Block)
    (hidle : s.db.activeSession = none)
    (hdb : DbBounded s.db)
    (h0 : c0.dateNow ≠ 0)
    (hcontent : trimEmpty content = false)
    (hpage : s.app.currentPage = some page) :
    ∃ b ts,
      (handleCreateBlock (sysStartRecording s pageId c0.dateNow).1 content
          c1.dateNow tP).2 = some b ∧
      b.audio_timestamp = some ts ∧
      ts.timestamp_seconds = Int.fdiv (c1.dateNow - c0.dateNow) 1000 := by
  have h1 : (sysStartRecording s pageId c0.dateNow).1.app.audioState.isRecording
      = true := by
    rw [sysStartRecording_idle s pageId c0.dateNow hidle]
  have h2 : (sysStartRecording s pageId c0.dateNow).1.app.audioState.recordingId
      = some s.db.nextId := by
    rw [sysStartRecording_idle s pageId c0.dateNow hidle]
  have h3 : (sysStartRecording s pageId c0.dateNow).1.app.audioState.startTime
      = some c0.dateNow := by
    rw [sysStartRecording_idle s pageId c0.dateNow hidle]
  have h6 : (sysStartRecording s pageId c0.dateNow).1.app.currentPage
      = some page := by
    rw [sysStartRecording_idle s pageId c0.dateNow hidle]
    exact hpage
  have h7 : DbBounded (sysStartRecording s pageId c0.dateNow).1.db := by
    rw [sysStartRecording_idle s pageId c0.dateNow hidle]
    intro r hr
    have := hdb r hr
    show r.block_id < s.db.nextId + 1
    omega
  have core := handleCreateBlock_recording
    (sysStartRecording s pageId c0.dateNow).1 content c1.dateNow tP
    s.db.nextId c0.dateNow page h1 h2 h3 h0 hcontent h6 h7
  exact ⟨_, _, by rw [core], rfl, rfl⟩

/-- C1 witness: the amended statement at a concrete session started at
wall-clock 1000 with a creation at wall-clock 3000 (monotonic 6000 with a
-3000 adjustment). -/
theorem offset_is_wall_clock_difference_witness :
    ∃ b ts,
      (handleCreateBlock
          (sysStartRecording sys0 0 (Clock.mk 1000 0).dateNow).1 "note"
          (Clock.mk 6000 (-3000)).dateNow 0).2 = some b ∧
      b.audio_timestamp = some ts ∧
      ts.timestamp_seconds =
        Int.fdiv ((Clock.mk 6000 (-3000)).dateNow -
          (Clock.mk 1000 0).dateNow) 1000 :=
  offset_is_wall_clock_difference sys0 0 (Clock.mk 1000 0)
    (Clock.mk 6000 (-3000)) "note" 0 pageFixture rfl (by decide) (by decide)
    (by decide) rfl

/-- C2: the offset stored in the binding of a block created during an active
session is computed from the wall-clock reading `now` taken synchronously in
the creation handler (MainEditor.tsx line 29), before the asynchronous
persistence step: whatever the persistence instants `tP` and `tP2` are, the
stored offset is floor((now - startTime) / 1000), so it reflects the clock at
the moment the creation intent was issued, independent of how long
persistence takes. -/
theorem offset_captured_at_intent (s : Sys) (content : String) (now : Int)
    (tP tP2 : Int) (rid : Nat) (st : Int) (page : Block)
    (hrec : s.app.audioState.isRecording = true)
    (hrid : s.app.audioState.recordingId = some rid)
    (hst : s.app.audioState.startTime = some st)
    (hst0 : st ≠ 0)
    (hcontent : trimEmpty content = false)
    (hpage : s.app.currentPage = some page)
    (hdb : DbBounded s.db) :
    ∃ b b2 ts ts2,
      (handleCreateBlock s content now tP).2 = some b ∧
      b.audio_timestamp = some ts ∧
      ts.timestamp_seconds = Int.fdiv (now - st) 1000 ∧
      (handleCreateBlock s content now tP2).2 = some b2 ∧
      b2.audio_timestamp = some ts2 ∧
      ts2.timestamp_seconds = ts.timestamp_seconds := by
  have core1 := handleCreateBlock_recording s content now tP rid st page
    hrec hrid hst hst0 hcontent hpage hdb
  have core2 := handleCreateBlock_recording s content now tP2 rid st page
    hrec hrid hst hst0 hcontent hpage hdb
  exact ⟨_, _, _, _, by rw [core1], rfl, rfl, by rw [core2], rfl, rfl⟩

/-- C2 witness: the statement at the concrete session of `recordingSys`, an
intent-time reading 5000 and two different persistence instants 111 and
999. -/
theorem offset_captured_at_intent_witness :
    ∃ b b2 ts ts2,
      (handleCreateBlock recordingSys "note" 5000 111).2 = some b ∧
      b.audio_timestamp = some ts ∧
      ts.timestamp_seconds = Int.fdiv (5000 - 1000) 1000 ∧
      (handleCreateBlock recordingSys "note" 5000 999).2 = some b2 ∧
      b2.audio_timestamp = some ts2 ∧
      ts2.timestamp_seconds = ts.timestamp_seconds :=
  offset_captured_at_intent recordingSys "note" 5000 111 999 1 1000
    pageFixture rfl rfl rfl (by decide) (by decide) rfl (by decide)

/-- C3 counterexample: within one session (started at wall-clock 1000,
monotonic readings strictly increasing 1000, 6000, 7000), a -5000 ms
wall-clock adjustment between two block creations makes the stored offsets
DECREASE in creation order: 5 then 1.  The claimed unconditional
monotonicity fails because the offsets come from the adjustable wall
clock. -/
theorem offsets_can_decrease_after_backward_adjustment :
    ((run sys0 [Op.start 0 (Clock.mk 1000 0),
        Op.createB "a" (Clock.mk 6000 0) 6000,
        Op.createB "b" (Clock.mk 7000 (-5000)) 2000]).db.audio_timestamps.map
      fun r => r.timestamp_seconds) = [5, 1] ∧
    ¬((5 : Int) ≤ 1) := by decide

/-- C3 (amended): for blocks created while one session is active, the stored
offsets are monotonically non-decreasing in creation order PROVIDED the
wall-clock (`Date.now()`) readings at the creations are non-decreasing — in
particular whenever no backward clock adjustment happens between them.
Offsets may repeat within the same second but never decrease then. -/
theorem offsets_monotone_of_wall_clock_monotone (s : Sys) (rid : Nat)
    (st : Int) (c1 c2 : Clock) (content1 content2 : String) (tP1 tP2 : Int)
    (page : Block)
    (hrec : s.app.audioState.isRecording = true)
    (hrid : s.app.audioState.recordingId = some rid)
    (hst : s.app.audioState.startTime = some st)
    (hst0 : st ≠ 0)
    (hc1 : trimEmpty content1 = false)
    (hc2 : trimEmpty content2 = false)
    (hpage : s.app.currentPage = some page)
    (hdb : DbBounded s.db)
    (hmono : c1.dateNow ≤ c2.dateNow) :
    ∃ b1 b2 ts1 ts2,
      (handleCreateBlock s content1 c1.dateNow tP1).2 = some b1 ∧
      b1.audio_timestamp = some ts1 ∧
      (handleCreateBlock (handleCreateBlock s content1 c1.dateNow tP1).1
          content2 c2.dateNow tP2).2 = some b2 ∧
      b2.audio_timestamp = some ts2 ∧
      ts1.timestamp_seconds ≤ ts2.timestamp_seconds := by
  have core1 := handleCreateBlock_recording s content1 c1.dateNow tP1 rid st
    page hrec hrid hst hst0 hc1 hpage hdb
  have h1rec : (handleCreateBlock s content1 c1.dateNow
      tP1).1.app.audioState.isRecording = true := by
    rw [core1]; exact hrec
  have h1rid : (handleCreateBlock s content1 c1.dateNow
      tP1).1.app.audioState.recordingId = some rid := by
    rw [core1]; exact hrid
  have h1st : (handleCreateBlock s content1 c1.dateNow
      tP1).1.app.audioState.startTime = some st := by
    rw [core1]; exact hst
  have h1page : (handleCreateBlock s content1 c1.dateNow
      tP1).1.app.currentPage = some page := by
    rw [core1]; exact hpage
  have h1db : DbBounded (handleCreateBlock s content1 c1.dateNow tP1).1.db :=
    handleCreateBlock_recording_bounded s content1 c1.dateNow tP1 rid st page
      hrec hrid hst hst0 hc1 hpage hdb
  have core2 := handleCreateBlock_recording
    (handleCreateBlock s content1 c1.dateNow tP1).1 content2 c2.dateNow tP2
    rid st page h1rec h1rid h1st hst0 hc2 h1page h1db
  refine ⟨_, _, _, _, by rw [core1], rfl, by rw [core2], rfl, ?_⟩
  show Int.fdiv (c1.dateNow - st) 1000 ≤ Int.fdiv (c2.dateNow - st) 1000
  exact fdiv_thousand_mono (by omega)

/-- C3 witness: the amended statement at the concrete session of
`recordingSys` with non-decreasing wall-clock readings 2000 and 3500. -/
theorem offsets_monotone_of_wall_clock_monotone_witness :
    ∃ b1 b2 ts1 ts2,
      (handleCreateBlock recordingSys "a" (Clock.mk 2000 0).dateNow 0).2 =
        some b1 ∧
      b1.audio_timestamp = some ts1 ∧
      (handleCreateBlock
          (handleCreateBlock recordingSys "a" (Clock.mk 2000 0).dateNow 0).1
          "b" (Clock.mk 3500 0).dateNow 0).2 = some b2 ∧
      b2.audio_timestamp = some ts2 ∧
      ts1.timestamp_seconds ≤ ts2.timestamp_seconds :=
  offsets_monotone_of_wall_clock_monotone recordingSys 1 1000
    (Clock.mk 2000 0) (Clock.mk 3500 0) "a" "b" 0 0 pageFixture rfl rfl rfl
    (by decide) (by decide) (by decide) rfl (by decide) (by decide)

/-- C4: a block created while no recording session is active receives no
binding at creation time and is never retroactively bound: after any further
operations (session starts and stops, more creations, edits, deletions),
`loadBinding` on it still returns nothing. -/
theorem unrecorded_block_never_bound (s : Sys) (content : String) (c : Clock)
    (tP : Int) (ops : List Op) (b : Block)
    (hnot : s.app.audioState.isRecording = false)
    (hdb : DbBounded s.db)
    (hres : (handleCreateBlock s content c.dateNow tP).2 = some b) :
    b.audio_timestamp = none ∧
    loadBinding (run (handleCreateBlock s content c.dateNow tP).1 ops).db b.id
      = none := by
  cases htr : trimEmpty content with
  | true => simp [handleCreateBlock, htr] at hres
  | false =>
    cases hpage : s.app.currentPage with
    | none => simp [handleCreateBlock, htr, hpage] at hres
    | some page =>
      obtain ⟨b0, heq, hid, hts⟩ := handleCreateBlock_not_recording s content
        c.dateNow tP page hnot htr hpage
      rw [heq] at hres
      obtain rfl : b0 = b := Option.some.inj hres
      refine ⟨hts, ?_⟩
      apply loadBinding_eq_none
      have hnb : NeverBound b0.id (handleCreateBlock s content c.dateNow tP).1
          := by
        rw [heq]
        constructor
        · intro r hr
          have := hdb r hr
          omega
        · show b0.id < s.db.nextId + 1
          omega
      exact (run_neverBound b0.id ops _ hnb).1

/-- C4 witness: a block created in `sys0` with no active session stays
unbound even after a session is later started and another (bound) block is
created during it. -/
theorem unrecorded_block_never_bound_witness :
    unboundBlockFixture.audio_timestamp = none ∧
    loadBinding (run (handleCreateBlock sys0 "note" (Clock.mk 5000 0).dateNow
        0).1 [Op.start 0 (Clock.mk 6000 0),
          Op.createB "later" (Clock.mk 7000 0) 0]).db
      unboundBlockFixture.id = none :=
  unrecorded_block_never_bound sys0 "note" (Clock.mk 5000 0) 0
    [Op.start 0 (Clock.mk 6000 0), Op.createB "later" (Clock.mk 7000 0) 0]
    unboundBlockFixture rfl (by decide) (by decide)

/-- C5: after `stop` of the session of recording `r1` followed by `start` of
a new session, a block created after the new start is bound to the NEW
recording: its binding references the recording of the session active at its
creation instant, which differs from `r1`, and no row ever associates that
block with `r1`. -/
theorem block_binds_to_active_session_after_restart (s : Sys) (r1 : Nat)
    (d : Int) (pageId : Nat) (c0 c1 : Clock) (content : String) (tP : Int)
    (page : Block)
    (hr1 : s.app.audioState.recordingId = some r1)
    (hact : s.db.activeSession = some r1)
    (hfresh : r1 < s.db.nextId)
    (hdb : DbBounded s.db)
    (h0 : c0.dateNow ≠ 0)
    (hcontent : trimEmpty content = false)
    (hpage : s.app.currentPage = some page) :
    ∃ rid2 b ts,
      (sysStartRecording (sysStopRecording s d).1 pageId
          c0.dateNow).1.app.audioState.recordingId = some rid2 ∧
      (handleCreateBlock (sysStartRecording (sysStopRecording s d).1 pageId
          c0.dateNow).1 content c1.dateNow tP).2 = some b ∧
      b.audio_timestamp = some ts ∧
      ts.recording_id = rid2 ∧
      rid2 ≠ r1 ∧
      (∀ r ∈ (handleCreateBlock (sysStartRecording (sysStopRecording s d).1
          pageId c0.dateNow).1 content c1.dateNow
          tP).1.db.audio_timestamps,
        r.block_id = b.id → r.recording_id = rid2) := by
  have hstop := sysStopRecording_active s r1 d hr1 hact
  have hs1idle : (sysStopRecording s d).1.db.activeSession = none := by
    rw [hstop]
  have hstart := sysStartRecording_idle (sysStopRecording s d).1 pageId
    c0.dateNow hs1idle
  have hnext : (sysStopRecording s d).1.db.nextId = s.db.nextId := by
    rw [hstop]
  have h2rec : (sysStartRecording (sysStopRecording s d).1 pageId
      c0.dateNow).1.app.audioState.isRecording = true := by
    rw [hstart]
  have h2rid : (sysStartRecording (sysStopRecording s d).1 pageId
      c0.dateNow).1.app.audioState.recordingId =
        some (sysStopRecording s d).1.db.nextId := by
    rw [hstart]
  have h2st : (sysStartRecording (sysStopRecording s d).1 pageId
      c0.dateNow).1.app.audioState.startTime = some c0.dateNow := by
    rw [hstart]
  have h2page : (sysStartRecording (sysStopRecording s d).1 pageId
      c0.dateNow).1.app.currentPage = some page := by
    rw [hstart, hstop]
    exact hpage
  have h2db : DbBounded (sysStartRecording (sysStopRecording s d).1 pageId
      c0.dateNow).1.db := by
    rw [hstart, hstop]
    intro r hr
    have := hdb r hr
    show r.block_id < s.db.nextId + 1
    omega
  have core := handleCreateBlock_recording
    (sysStartRecording (sysStopRecording s d).1 pageId c0.dateNow).1 content
    c1.dateNow tP (sysStopRecording s d).1.db.nextId c0.dateNow page h2rec
    h2rid h2st h0 hcontent h2page h2db
  refine ⟨(sysStopRecording s d).1.db.nextId, _, _, h2rid, by rw [core], rfl,
    rfl, ?_, ?_⟩
  · rw [hnext]
    omega
  · intro r hr hrb
    rw [core] at hr
    simp only [List.mem_append, List.mem_singleton] at hr
    rcases hr with hr | hr
    · have hlt := h2db r hr
      have hbid : (blockOf (sysStartRecording (sysStopRecording s d).1 pageId
          c0.dateNow).1 content page (sysStopRecording s d).1.db.nextId
          c0.dateNow c1.dateNow tP).id =
        (sysStartRecording (sysStopRecording s d).1 pageId
          c0.dateNow).1.db.nextId := rfl
      rw [hbid] at hrb
      omega
    · rw [hr]
      rfl

/-- C5 witness: the statement at the concrete session of `recordingSys`
(recording 1 active), stopped at duration 7, restarted at wall-clock 9000,
with a block created at wall-clock 12000. -/
theorem block_binds_to_active_session_after_restart_witness :
    ∃ rid2 b ts,
      (sysStartRecording (sysStopRecording recordingSys 7).1 0
          (Clock.mk 9000 0).dateNow).1.app.audioState.recordingId =
        some rid2 ∧
      (handleCreateBlock (sysStartRecording (sysStopRecording recordingSys
          7).1 0 (Clock.mk 9000 0).dateNow).1 "note"
          (Clock.mk 12000 0).dateNow 0).2 = some b ∧
      b.audio_timestamp = some ts ∧
      ts.recording_id = rid2 ∧
      rid2 ≠ 1 ∧
      (∀ r ∈ (handleCreateBlock (sysStartRecording (sysStopRecording
          recordingSys 7).1 0 (Clock.mk 9000 0).dateNow).1 "note"
          (Clock.mk 12000 0).dateNow 0).1.db.audio_timestamps,
        r.block_id = b.id → r.recording_id = rid2) :=
  block_binds_to_active_session_after_restart recordingSys 1 7 0
    (Clock.mk 9000 0) (Clock.mk 12000 0) "note" 0 pageFixture rfl rfl
    (by decide) (by decide) (by decide) (by decide) rfl

end Gita
